import Mathlib

/-!
# Verification of the reservation service's scheduling and booking core

A shallow embedding, in Lean 4, of the availability/slot computation and the
booking validation logic of `servicio_reservas` (files `main_reservas.py`,
`models_reservas.py`, `schemas_reservas.py`).

## Modelling conventions

* A Python `datetime` is a single `Nat`: the number of microseconds since the
  epoch of the proleptic Gregorian calendar (`date.toordinal` day 1), so
  `datetime.combine(d, t) = d * 86400000000 + t`, `.date()` is division by
  the microseconds-per-day constant, and comparison of datetimes is `Nat`
  comparison.  A `time` is a `Nat` number of microseconds since midnight;
  `time.min = 0` and `time.max = 86399999999` (23:59:59.999999).
* Ordinal day 1 (0001-01-01) is a Monday in the proleptic Gregorian calendar,
  so Python's `date.weekday()` (0 = Monday .. 6 = Sunday) is `(d + 6) % 7`.
* `astimezone(timezone.utc)` is modelled as the identity: the service runs
  with naive timestamps interpreted in a single zone, and all persisted and
  compared timestamps share that representation.
* Database tables are lists of rows in insertion order; SQLAlchemy
  `query(...).filter(...)` is `List.filter`, `.first()` is `List.find?`,
  `db.get(Model, id)` is `List.find?` on the primary key.
* The inter-service user lookup (`_get_user_details_from_api`) is an oracle
  `Nat → Bool` telling whether the requester resolves; its payload (name and
  email) only feeds calendar-event text and is not modelled.
* The Google-calendar collaborator is an oracle argument: `CalendarResult.ok`
  carries the optional event id returned by `create_calendar_event`, and
  `CalendarResult.failed` is the exception path.
-/

/-- Microseconds in one day. -/
def usecPerDay : Nat := 86400000000

/-- Python `time.min` (midnight) in microseconds. -/
def timeMin : Nat := 0

/-- Python `time.max` (23:59:59.999999) in microseconds. -/
def timeMax : Nat := 86399999999

/-- `datetime.combine(d, t)`: day ordinal `d` with time-of-day `t`. -/
def combine (d t : Nat) : Nat := d * usecPerDay + t

/-- `dt.date()`: the day ordinal of a datetime. -/
def fecha (dt : Nat) : Nat := dt / usecPerDay

/-- Python `date.weekday()`: 0 = Monday .. 6 = Sunday, for a day ordinal. -/
def weekday (d : Nat) : Nat := (d + 6) % 7

/-- Row of table `reglas_horario` (model `ReglaHorario`): a weekly rule.
`laboratorio_id = none` is a general (facility-agnostic) rule.
`tipo_intervalo` defaults to `"disponible"` in both schema and model. -/
structure Regla where
  id : Nat
  laboratorio_id : Option Nat
  dia_semana : Nat
  hora_inicio : Nat
  hora_fin : Nat
  es_habilitado : Bool
  tipo_intervalo : String
deriving DecidableEq

/-- Row of table `excepciones_horario` (model `ExcepcionHorario`): a date
exception.  `hora_inicio = hora_fin = none` means a whole-day exception. -/
structure Excepcion where
  id : Nat
  laboratorio_id : Option Nat
  fecha : Nat
  hora_inicio : Option Nat
  hora_fin : Option Nat
  es_habilitado : Bool
  descripcion : Option String
deriving DecidableEq

/-- Output slot (`schemas.SlotHorario`). -/
structure Slot where
  inicio : Nat
  fin : Nat
  tipo : String
deriving DecidableEq

/-- The facility-specific rules for weekday `w`: the query
`filter(ReglaHorario.laboratorio_id == lab_id)` grouped by `dia_semana`
(insertion order preserved, as `defaultdict(list)` appends). -/
def reglasEspecificas (labId : Nat) (reglas : List Regla) (w : Nat) : List Regla :=
  (reglas.filter (fun r => r.laboratorio_id == some labId)).filter (fun r => r.dia_semana == w)

/-- The general rules for weekday `w`: the query
`filter(ReglaHorario.laboratorio_id == None)` grouped by `dia_semana`. -/
def reglasGenerales (reglas : List Regla) (w : Nat) : List Regla :=
  (reglas.filter (fun r => r.laboratorio_id == none)).filter (fun r => r.dia_semana == w)

/-- `reglas_a_usar`: facility-specific rules for the weekday if any exist,
else the general rules for that weekday (no union). -/
def reglasAUsar (labId : Nat) (reglas : List Regla) (w : Nat) : List Regla :=
  let esp := reglasEspecificas labId reglas w
  if esp.isEmpty then reglasGenerales reglas w else esp

/-- The exception selected for day `d`: among the exceptions dated `d` that
are for this facility or general, the first facility-specific one, else the
first general one (`excepcion_especifica if excepcion_especifica else
excepcion_general`). -/
def excepcionAUsar (labId : Nat) (d : Nat) (excs : List Excepcion) : Option Excepcion :=
  let hoy := excs.filter
    (fun e => e.fecha == d && (e.laboratorio_id == some labId || e.laboratorio_id == none))
  match hoy.find? (fun e => e.laboratorio_id == some labId) with
  | some e => some e
  | none => hoy.find? (fun e => e.laboratorio_id == none)

/-- Whether day `d` is short-circuited by a whole-day disabled exception
(`not excepcion_a_usar.es_habilitado and excepcion_a_usar.hora_inicio is None`). -/
def diaCerrado (labId : Nat) (excs : List Excepcion) (d : Nat) : Bool :=
  match excepcionAUsar labId d excs with
  | some e => !e.es_habilitado && e.hora_inicio.isNone
  | none => false

/-- The single full-day slot `SlotHorario(combine(d, time.min), combine(d, time.max), tipo)`. -/
def fullDaySlot (d : Nat) (tipo : String) : Slot :=
  ⟨combine d timeMin, combine d timeMax, tipo⟩

/-- The slot a rule emits on day `d`: boundaries are the date combined with
the rule's times, label is `tipo_intervalo` if `es_habilitado` else
`"no_habilitado"`. -/
def reglaSlot (d : Nat) (r : Regla) : Slot :=
  ⟨combine d r.hora_inicio, combine d r.hora_fin,
    if r.es_habilitado then r.tipo_intervalo else "no_habilitado"⟩

/-- Stable insertion of a rule into a list sorted by `hora_inicio`
(the earlier-listed rule goes first on ties, matching Python's stable
`sorted(..., key=lambda r: r.hora_inicio)`). -/
def insertRegla (r : Regla) : List Regla → List Regla
  | [] => [r]
  | x :: xs => if x.hora_inicio < r.hora_inicio then x :: insertRegla r xs else r :: x :: xs

/-- `sorted(reglas_a_usar, key=lambda r: r.hora_inicio)`. -/
def sortReglas : List Regla → List Regla
  | [] => []
  | x :: xs => insertRegla x (sortReglas xs)

/-- The rule-derived slots for day `d`: a single full-day `"no_habilitado"`
slot when no rules apply, else one slot per applicable rule in ascending
`hora_inicio` order. -/
def slotsReglas (labId : Nat) (reglas : List Regla) (d : Nat) : List Slot :=
  let aUsar := reglasAUsar labId reglas (weekday d)
  if aUsar.isEmpty then [fullDaySlot d "no_habilitado"]
  else (sortReglas aUsar).map (reglaSlot d)

/-- Python's `s or dflt` on an optional string: falls back to the default
when `s` is `None` and also when it is the falsy empty string. -/
def pyStrOr (s : Option String) (dflt : String) : String :=
  match s with
  | some t => if t == "" then dflt else t
  | none => dflt

/-- The slot sequence `get_horario_laboratorio` emits for a single day `d`:
a whole-day disabled exception short-circuits to one full-day slot labelled
`descripcion or "no_habilitado"` (Python `or`: the default also applies to
an empty-string description); otherwise the rule-derived slots. -/
def computeDia (labId : Nat) (reglas : List Regla) (excs : List Excepcion) (d : Nat) : List Slot :=
  match excepcionAUsar labId d excs with
  | some e =>
    if !e.es_habilitado && e.hora_inicio.isNone then
      [fullDaySlot d (pyStrOr e.descripcion "no_habilitado")]
    else slotsReglas labId reglas d
  | none => slotsReglas labId reglas d

/-- The whole `get_horario_laboratorio` loop: one keyed entry per day of the
inclusive range `[fechaInicio, fechaFin]`, in order (day ordinals stand in
for the `isoformat()` keys, which render dates bijectively). Empty when
`fechaInicio > fechaFin`. -/
def getHorarioLaboratorio (labId fechaInicio fechaFin : Nat)
    (reglas : List Regla) (excs : List Excepcion) : List (Nat × List Slot) :=
  (List.range (fechaFin + 1 - fechaInicio)).map
    (fun i => (fechaInicio + i, computeDia labId reglas excs (fechaInicio + i)))

/-- `horario_dia_dict.get(inicio.date().isoformat(), [])` as computed inside
`create_reserva`: the evaluator is called for the single day `dt.date()` and
that day's entry is looked up. -/
def slotsDelDia (labId : Nat) (reglas : List Regla) (excs : List Excepcion) (dt : Nat) :
    List Slot :=
  ((getHorarioLaboratorio labId (fecha dt) (fecha dt) reglas excs).lookup (fecha dt)).getD []

/-- Row of table `reservas` (model `Reserva`). -/
structure ReservaRow where
  id : Nat
  usuario_id : Nat
  laboratorio_id : Nat
  inicio : Nat
  fin : Nat
  estado : String
  google_event_id : Option String
deriving DecidableEq

/-- Request body `schemas.ReservaCreate`. -/
structure ReservaCreate where
  usuario_id : Nat
  laboratorio_id : Nat
  inicio : Nat
  fin : Nat
deriving DecidableEq

/-- Outcome of `calendar_service.create_calendar_event`: `ok` returns the
optional event id, `failed` is the exception path (caught and only logged). -/
inductive CalendarResult where
  | ok : Option String → CalendarResult
  | failed : CalendarResult
deriving DecidableEq

/-- The `HTTPException`s `create_reserva` can raise, by branch. -/
inductive BookingError where
  | forbiddenRole
  | facilityNotFound
  | requesterNotFound
  | invalidRange
  | inPast
  | slotMismatch
  | overlap (reservaId : Nat)
deriving DecidableEq

/-- The booking store and the collaborator oracles `create_reserva` consults:
the facility table (ids in `labs_cache_main` / `laboratorios`), the
user-identity oracle, and the schedule tables. -/
structure BookingEnv where
  labs : List Nat
  userExists : Nat → Bool
  reglas : List Regla
  excepciones : List Excepcion

/-- The committed row after the best-effort calendar step of `create_reserva`:
only a successful `create_calendar_event` that returns an id sets
`google_event_id`; the exception path is caught and changes nothing. -/
def reservaFinal (base : ReservaRow) (cal : CalendarResult) : ReservaRow :=
  match cal with
  | .ok (some gid) => { base with google_event_id := some gid }
  | _ => base

/-- `create_reserva` (endpoint `POST /reservas`), the Booking Validator.
Checks, in source order: caller role in `{admin, docente}`; facility exists;
requester resolves via the user service; `inicio < fin`; `inicio` not in the
past; exact slot match against the Availability Evaluator's output for
`inicio.date()`; no overlapping non-cancelled booking.  On success the row is
committed with `estado = "activa"`, then the calendar event is attempted:
only a successful creation that returns an id sets `google_event_id`.
The returned pair is the refreshed row and the new store. -/
def createReserva (env : BookingEnv) (callerRol : String) (req : ReservaCreate)
    (now : Nat) (cal : CalendarResult) (store : List ReservaRow) (newId : Nat) :
    Except BookingError (ReservaRow × List ReservaRow) :=
  if !(callerRol == "admin" || callerRol == "docente") then .error .forbiddenRole
  else if !(env.labs.contains req.laboratorio_id) then .error .facilityNotFound
  else if !(env.userExists req.usuario_id) then .error .requesterNotFound
  else if req.fin ≤ req.inicio then .error .invalidRange
  else if req.inicio < now then .error .inPast
  else if !((slotsDelDia req.laboratorio_id env.reglas env.excepciones req.inicio).any
      (fun s => s.inicio == req.inicio && s.fin == req.fin && s.tipo == "disponible")) then
    .error .slotMismatch
  else
    match store.find? (fun r => r.laboratorio_id == req.laboratorio_id
        && !(r.estado == "cancelada")
        && decide (r.inicio < req.fin) && decide (r.fin > req.inicio)) with
    | some r => .error (.overlap r.id)
    | none =>
      let final := reservaFinal
        ⟨newId, req.usuario_id, req.laboratorio_id, req.inicio, req.fin, "activa", none⟩ cal
      .ok (final, store ++ [final])

/-- The `HTTPException`s `cancel_reserva` can raise, by branch. -/
inductive CancelError where
  | notFound
  | forbidden
  | alreadyCancelled
deriving DecidableEq

/-- The updated row after a successful `cancel_reserva`: `estado` is set to
`"cancelada"`, then the calendar event is best-effort deleted and only a
successful deletion (`calDeleteOk`, the collaborator oracle) clears
`google_event_id`; a deletion failure is caught and only logged. -/
def cancelResult (r : ReservaRow) (calDeleteOk : Bool) : ReservaRow :=
  let r1 := { r with estado := "cancelada" }
  if r.google_event_id.isSome && calDeleteOk then { r1 with google_event_id := none } else r1

/-- `cancel_reserva` (endpoint `PUT /reservas/{id}/cancelar`).  Checks, in
source order: the booking exists; the caller is an admin or the booking's
owner; the booking is not already cancelled.  On success commits the
cancelled row in place. -/
def cancelReserva (callerId : Nat) (callerRol : String) (calDeleteOk : Bool)
    (store : List ReservaRow) (reservaId : Nat) :
    Except CancelError (ReservaRow × List ReservaRow) :=
  match store.find? (fun r => r.id == reservaId) with
  | none => .error .notFound
  | some r =>
    if !(callerRol == "admin") && !(r.usuario_id == callerId) then .error .forbidden
    else if r.estado == "cancelada" then .error .alreadyCancelled
    else
      let r2 := cancelResult r calDeleteOk
      .ok (r2, store.map (fun x => if x.id == reservaId then r2 else x))

/-- The booking store an endpoint leaves behind: the new store on success,
the old one when an `HTTPException` aborted the transaction. -/
def storeAfter {ε α σ : Type} (s : σ) : Except ε (α × σ) → σ
  | .ok (_, s1) => s1
  | .error _ => s

/-- Whether an endpoint call returned a 2xx response rather than raising an
`HTTPException`. -/
def resultOk {ε α : Type} : Except ε α → Bool
  | .ok _ => true
  | .error _ => false

/-- `schemas.ReglaHorarioUpdate`: the update schema declares no fields, so
every parsed request body is this empty record and
`model_dump(exclude_unset=True)` is always the empty dict. -/
structure ReglaHorarioUpdate where
deriving DecidableEq

/-- `schemas.ExcepcionHorarioUpdate`: likewise declares no fields. -/
structure ExcepcionHorarioUpdate where
deriving DecidableEq

/-- The `HTTPException`s the two update endpoints can raise. -/
inductive UpdateError where
  | notFound
  | noUpdateData
deriving DecidableEq

/-- `update_regla` (endpoint `PUT /admin/horarios/reglas/{id}`): 404 when the
rule is missing; otherwise `update_data = regla_data.model_dump(exclude_unset=True)`
is empty (the schema has no fields), so the `if not update_data` guard always
raises 400 before any field is applied. -/
def updateRegla (store : List Regla) (reglaId : Nat) (_ : ReglaHorarioUpdate) :
    Except UpdateError (Regla × List Regla) :=
  match store.find? (fun r => r.id == reglaId) with
  | none => .error .notFound
  | some _ => .error .noUpdateData

/-- `update_excepcion` (endpoint `PUT /admin/horarios/excepciones/{id}`): 404
when the exception is missing; otherwise the `for key, value in
update_data.items()` loop iterates over the empty dict (the schema has no
fields), so the stored row is committed and returned unchanged. -/
def updateExcepcion (store : List Excepcion) (excId : Nat) (_ : ExcepcionHorarioUpdate) :
    Except UpdateError (Excepcion × List Excepcion) :=
  match store.find? (fun e => e.id == excId) with
  | none => .error .notFound
  | some e => .ok (e, store)

/-- The overlap invariant of the booking store: no two distinct non-cancelled
bookings for the same facility have overlapping `[inicio, fin)` intervals. -/
def okStore (store : List ReservaRow) : Prop :=
  store.Pairwise (fun r1 r2 => r1.laboratorio_id = r2.laboratorio_id →
    r1.estado ≠ "cancelada" → r2.estado ≠ "cancelada" →
    ¬(r1.inicio < r2.fin ∧ r2.inicio < r1.fin))

/-! ## Supporting lemmas -/

/-- Inside `create_reserva` the evaluator is called with
`fecha_inicio = fecha_fin = inicio.date()`, so the dictionary lookup yields
exactly that single day's slot sequence. -/
theorem slotsDelDia_eq_computeDia (labId : Nat) (reglas : List Regla)
    (excs : List Excepcion) (dt : Nat) :
    slotsDelDia labId reglas excs dt = computeDia labId reglas excs (fecha dt) := by
  simp [slotsDelDia, getHorarioLaboratorio, Nat.add_sub_cancel_left, List.lookup]

/-- Inserting into the sorted prefix permutes: `insertRegla r l` is `r :: l`
up to order. -/
theorem insertRegla_perm (r : Regla) (l : List Regla) : (insertRegla r l).Perm (r :: l) := by
  induction l with
  | nil => simp [insertRegla]
  | cons x xs ih =>
    simp only [insertRegla]
    split
    · exact (ih.cons x).trans (List.Perm.swap r x xs)
    · exact List.Perm.refl _

/-- The insertion sort permutes its input. -/
theorem sortReglas_perm (l : List Regla) : (sortReglas l).Perm l := by
  induction l with
  | nil => simp [sortReglas]
  | cons x xs ih =>
    exact (insertRegla_perm x (sortReglas xs)).trans (ih.cons x)

/-- Insertion preserves sortedness by `hora_inicio`. -/
theorem insertRegla_pairwise (r : Regla) (l : List Regla)
    (h : l.Pairwise (fun a b => a.hora_inicio ≤ b.hora_inicio)) :
    (insertRegla r l).Pairwise (fun a b => a.hora_inicio ≤ b.hora_inicio) := by
  induction l with
  | nil => simp [insertRegla]
  | cons x xs ih =>
    rcases List.pairwise_cons.mp h with ⟨hx, hxs⟩
    simp only [insertRegla]
    split
    · rename_i hlt
      refine List.pairwise_cons.mpr ⟨?_, ih hxs⟩
      intro b hb
      rcases List.mem_cons.mp ((insertRegla_perm r xs).mem_iff.mp hb) with rfl | hbxs
      · exact Nat.le_of_lt hlt
      · exact hx b hbxs
    · rename_i hnlt
      have hle : r.hora_inicio ≤ x.hora_inicio := Nat.le_of_not_lt hnlt
      refine List.pairwise_cons.mpr ⟨?_, h⟩
      intro b hb
      rcases List.mem_cons.mp hb with rfl | hbxs
      · exact hle
      · exact Nat.le_trans hle (hx b hbxs)

/-- The insertion sort output is sorted by `hora_inicio`. -/
theorem sortReglas_sorted (l : List Regla) :
    (sortReglas l).Pairwise (fun a b => a.hora_inicio ≤ b.hora_inicio) := by
  induction l with
  | nil => simp [sortReglas]
  | cons x xs ih => exact insertRegla_pairwise x (sortReglas xs) ih

/-- A whole-day disabled selected exception short-circuits the day to a
single full-day slot labelled with its description. -/
theorem computeDia_cerrado (labId : Nat) (reglas : List Regla) (excs : List Excepcion)
    (d : Nat) (e : Excepcion) (hsel : excepcionAUsar labId d excs = some e)
    (hdis : e.es_habilitado = false) (hini : e.hora_inicio = none) :
    computeDia labId reglas excs d = [fullDaySlot d (pyStrOr e.descripcion "no_habilitado")] := by
  simp [computeDia, hsel, hdis, hini]

/-- With no whole-day disabled selected exception, the day's slots are the
rule-derived ones. -/
theorem computeDia_not_cerrado (labId : Nat) (reglas : List Regla) (excs : List Excepcion)
    (d : Nat) (h : diaCerrado labId excs d = false) :
    computeDia labId reglas excs d = slotsReglas labId reglas d := by
  unfold diaCerrado at h
  cases hsel : excepcionAUsar labId d excs with
  | none => simp [computeDia, hsel]
  | some e =>
    rw [hsel] at h
    have hcond : (!e.es_habilitado && e.hora_inicio.isNone) = false := h
    simp [computeDia, hsel, hcond]

/-- The calendar step never changes `estado`. -/
theorem reservaFinal_estado (b : ReservaRow) (cal : CalendarResult) :
    (reservaFinal b cal).estado = b.estado := by
  unfold reservaFinal; split <;> rfl

/-- The calendar step never changes `laboratorio_id`. -/
theorem reservaFinal_laboratorio (b : ReservaRow) (cal : CalendarResult) :
    (reservaFinal b cal).laboratorio_id = b.laboratorio_id := by
  unfold reservaFinal; split <;> rfl

/-- The calendar step never changes `inicio`. -/
theorem reservaFinal_inicio (b : ReservaRow) (cal : CalendarResult) :
    (reservaFinal b cal).inicio = b.inicio := by
  unfold reservaFinal; split <;> rfl

/-- The calendar step never changes `fin`. -/
theorem reservaFinal_fin (b : ReservaRow) (cal : CalendarResult) :
    (reservaFinal b cal).fin = b.fin := by
  unfold reservaFinal; split <;> rfl

/-- A failed calendar call leaves the committed row exactly as persisted. -/
theorem reservaFinal_failed (b : ReservaRow) : reservaFinal b .failed = b := rfl

/-- A cancelled row's `estado` is `"cancelada"` on both calendar branches. -/
theorem cancelResult_estado (r : ReservaRow) (calDeleteOk : Bool) :
    (cancelResult r calDeleteOk).estado = "cancelada" := by
  unfold cancelResult; split <;> rfl

/-! ## Claim theorems -/

/-- C10: because `ReglaHorarioUpdate` and `ExcepcionHorarioUpdate` declare no
fields, `update_regla` always fails with the 400 "no data to update" error
for an existing rule and leaves the store unchanged, and `update_excepcion`
returns the stored exception with every field unchanged for every existing
exception id and every request body — neither public update endpoint can
modify any persisted field. -/
theorem claim10_update_endpoints_cannot_modify :
    (∀ (store : List Regla) (reglaId : Nat) (payload : ReglaHorarioUpdate) (r : Regla),
      store.find? (fun x => x.id == reglaId) = some r →
      updateRegla store reglaId payload = .error .noUpdateData ∧
      storeAfter store (updateRegla store reglaId payload) = store) ∧
    (∀ (store : List Excepcion) (excId : Nat) (payload : ExcepcionHorarioUpdate) (e : Excepcion),
      store.find? (fun x => x.id == excId) = some e →
      updateExcepcion store excId payload = .ok (e, store) ∧
      storeAfter store (updateExcepcion store excId payload) = store) := by
  constructor
  · intro store reglaId payload r hfind
    unfold updateRegla
    rw [hfind]
    exact ⟨rfl, rfl⟩
  · intro store excId payload e hfind
    unfold updateExcepcion
    rw [hfind]
    exact ⟨rfl, rfl⟩

/-- Witness for C10 at a concrete rule and a concrete exception. -/
theorem claim10_witness :
    updateRegla [⟨7, none, 0, 32400000000, 36000000000, true, "disponible"⟩] 7 ⟨⟩
      = .error .noUpdateData ∧
    updateExcepcion [⟨3, some 1, 100, none, none, false, none⟩] 3 ⟨⟩
      = .ok (⟨3, some 1, 100, none, none, false, none⟩,
             [⟨3, some 1, 100, none, none, false, none⟩]) :=
  ⟨(claim10_update_endpoints_cannot_modify.1 _ 7 ⟨⟩
      ⟨7, none, 0, 32400000000, 36000000000, true, "disponible"⟩ (by decide)).1,
   (claim10_update_endpoints_cannot_modify.2 _ 3 ⟨⟩
      ⟨3, some 1, 100, none, none, false, none⟩ (by decide)).1⟩

/-- C8: `cancel_reserva` fails with `NotFound` when no booking has the id,
with `Forbidden` when the caller is neither the owner nor an admin, and with
`AlreadyCancelled` when the booking is already cancelled, the checks applied
in that order; every failure leaves the store unchanged, and on success the
booking's `estado` becomes `"cancelada"`. -/
theorem claim8_cancel_order_and_effects (callerId : Nat) (callerRol : String)
    (calDeleteOk : Bool) (store : List ReservaRow) (reservaId : Nat) :
    (store.find? (fun r => r.id == reservaId) = none →
      cancelReserva callerId callerRol calDeleteOk store reservaId = .error .notFound) ∧
    (∀ r, store.find? (fun r => r.id == reservaId) = some r →
      callerRol ≠ "admin" → r.usuario_id ≠ callerId →
      cancelReserva callerId callerRol calDeleteOk store reservaId = .error .forbidden) ∧
    (∀ r, store.find? (fun r => r.id == reservaId) = some r →
      (callerRol = "admin" ∨ r.usuario_id = callerId) → r.estado = "cancelada" →
      cancelReserva callerId callerRol calDeleteOk store reservaId
        = .error .alreadyCancelled) ∧
    (∀ err, cancelReserva callerId callerRol calDeleteOk store reservaId = .error err →
      storeAfter store (cancelReserva callerId callerRol calDeleteOk store reservaId)
        = store) ∧
    (∀ r1 s1, cancelReserva callerId callerRol calDeleteOk store reservaId = .ok (r1, s1) →
      r1.estado = "cancelada") := by
  refine ⟨?_, ?_, ?_, ?_, ?_⟩
  · intro hfind
    unfold cancelReserva
    rw [hfind]
  · intro r hfind hrol howner
    unfold cancelReserva
    rw [hfind]
    simp [hrol, howner]
  · intro r hfind hauth hestado
    unfold cancelReserva
    rw [hfind]
    rcases hauth with hrol | howner
    · simp [hrol, hestado]
    · simp [howner, hestado]
  · intro err herr
    rw [herr]
    rfl
  · intro r1 s1 h
    unfold cancelReserva at h
    cases hfind : store.find? (fun r => r.id == reservaId) with
    | none => rw [hfind] at h; exact Except.noConfusion h
    | some r =>
      rw [hfind] at h
      dsimp only at h
      by_cases c1 : (!(callerRol == "admin") && !(r.usuario_id == callerId)) = true
      · rw [if_pos c1] at h; exact Except.noConfusion h
      · rw [if_neg c1] at h
        by_cases c2 : (r.estado == "cancelada") = true
        · rw [if_pos c2] at h; exact Except.noConfusion h
        · rw [if_neg c2] at h
          injection h with hpair
          have hr : r1 = cancelResult r calDeleteOk := (congrArg Prod.fst hpair).symm
          rw [hr]
          exact cancelResult_estado r calDeleteOk

/-- Witness for C8: a store with one active booking owned by user 2; a
non-owner non-admin caller is refused, the owner cancels successfully, and a
missing id is not found. -/
theorem claim8_witness :
    cancelReserva 9 "docente" true [⟨1, 2, 1, 100, 200, "activa", none⟩] 1
      = .error .forbidden ∧
    cancelReserva 9 "docente" true [⟨1, 2, 1, 100, 200, "activa", none⟩] 5
      = .error .notFound ∧
    cancelReserva 2 "docente" true [⟨1, 2, 1, 100, 200, "cancelada", none⟩] 1
      = .error .alreadyCancelled :=
  ⟨(claim8_cancel_order_and_effects 9 "docente" true _ 1).2.1
      ⟨1, 2, 1, 100, 200, "activa", none⟩ (by decide) (by decide) (by decide),
   (claim8_cancel_order_and_effects 9 "docente" true _ 5).1 (by decide),
   (claim8_cancel_order_and_effects 2 "docente" true _ 1).2.2.1
      ⟨1, 2, 1, 100, 200, "cancelada", none⟩ (by decide) (Or.inr rfl) rfl⟩

/-- C4, counterexample: a whole-day disabled exception with a description
yields one slot for the day, but its end is `combine d time.max`
(23:59:59.999999, microsecond 86399999999 of the day, not 23:59:59.999,
microsecond 86399999000) and its label is the exception's `descripcion`
(here `"mantenimiento"`), not the default unavailable label, so the day's
output is not the single slot the claim describes. -/
theorem claim4_counterexample :
    computeDia 1 [] [⟨1, some 1, 100, none, none, false, some "mantenimiento"⟩] 100
      ≠ [⟨combine 100 timeMin, combine 100 86399999000, "no_habilitado"⟩] ∧
    computeDia 1 [] [⟨1, some 1, 100, none, none, false, some "mantenimiento"⟩] 100
      = [⟨combine 100 timeMin, combine 100 timeMax, "mantenimiento"⟩] := by
  refine ⟨?_, by rfl⟩
  decide

/-- C4 (amended): for every date whose selected exception (facility-specific
preferred over general) is whole-day and disabled, `compute_schedule` returns
exactly one slot for that day, spanning 00:00 to `time.max`
(23:59:59.999999), labeled with the exception's description when that is a
non-empty string and with the default `"no_habilitado"` when the description
is absent or the empty string (Python `or` defaults on both) — regardless of
the weekly rules, which are not consulted for that day. -/
theorem claim4_whole_day_exception (labId d : Nat) (excs : List Excepcion) (e : Excepcion)
    (hsel : excepcionAUsar labId d excs = some e)
    (hdis : e.es_habilitado = false) (hini : e.hora_inicio = none) :
    ∀ reglas : List Regla,
      computeDia labId reglas excs d =
        [⟨combine d timeMin, combine d timeMax, pyStrOr e.descripcion "no_habilitado"⟩] := by
  intro reglas
  rw [computeDia_cerrado labId reglas excs d e hsel hdis hini]
  rfl

/-- Witness for C4 at two concrete facility-specific whole-day disabled
exceptions, each with a weekly rule present for that weekday: one with no
description and one with an empty-string description, both labelled with the
default `"no_habilitado"`. -/
theorem claim4_witness :
    computeDia 1 [⟨5, some 1, weekday 100, 32400000000, 36000000000, true, "disponible"⟩]
        [⟨1, some 1, 100, none, none, false, none⟩] 100
      = [⟨combine 100 timeMin, combine 100 timeMax, "no_habilitado"⟩] ∧
    computeDia 1 [⟨5, some 1, weekday 101, 32400000000, 36000000000, true, "disponible"⟩]
        [⟨2, some 1, 101, none, none, false, some ""⟩] 101
      = [⟨combine 101 timeMin, combine 101 timeMax, "no_habilitado"⟩] :=
  ⟨claim4_whole_day_exception 1 100 [⟨1, some 1, 100, none, none, false, none⟩]
      ⟨1, some 1, 100, none, none, false, none⟩ (by decide) rfl rfl
      [⟨5, some 1, weekday 100, 32400000000, 36000000000, true, "disponible"⟩],
   claim4_whole_day_exception 1 101 [⟨2, some 1, 101, none, none, false, some ""⟩]
      ⟨2, some 1, 101, none, none, false, some ""⟩ (by decide) rfl rfl
      [⟨5, some 1, weekday 101, 32400000000, 36000000000, true, "disponible"⟩]⟩

/-- C5: on a day whose weekday has at least one facility-specific rule, the
general rules contribute nothing: the output is unchanged under any
modification of the rule table that preserves the facility-specific rows
(in particular, under any change to the general rows). -/
theorem claim5_specific_shadows_general (labId d : Nat) (excs : List Excepcion)
    (reglas1 reglas2 : List Regla)
    (hagree : reglas1.filter (fun r => r.laboratorio_id == some labId) =
              reglas2.filter (fun r => r.laboratorio_id == some labId))
    (hesp : reglasEspecificas labId reglas1 (weekday d) ≠ []) :
    computeDia labId reglas1 excs d = computeDia labId reglas2 excs d := by
  have hespEq : reglasEspecificas labId reglas1 (weekday d)
      = reglasEspecificas labId reglas2 (weekday d) := by
    unfold reglasEspecificas
    rw [hagree]
  have hne : (reglasEspecificas labId reglas1 (weekday d)).isEmpty = false := by
    cases hval : reglasEspecificas labId reglas1 (weekday d) with
    | nil => exact absurd hval hesp
    | cons a l => rfl
  have hslots : slotsReglas labId reglas1 d = slotsReglas labId reglas2 d := by
    simp [slotsReglas, reglasAUsar, ← hespEq, hne]
  unfold computeDia
  cases hsel : excepcionAUsar labId d excs with
  | none => exact hslots
  | some e =>
    dsimp only
    split
    · rfl
    · exact hslots

/-- Witness for C5: facility 1 has a Monday rule; adding a different general
Monday rule does not change Monday's slots. -/
theorem claim5_witness :
    computeDia 1 [⟨5, some 1, 0, 32400000000, 36000000000, true, "disponible"⟩] [] 1
      = computeDia 1 [⟨5, some 1, 0, 32400000000, 36000000000, true, "disponible"⟩,
                      ⟨6, none, 0, 39600000000, 43200000000, true, "disponible"⟩] [] 1 :=
  claim5_specific_shadows_general 1 1 []
    [⟨5, some 1, 0, 32400000000, 36000000000, true, "disponible"⟩]
    [⟨5, some 1, 0, 32400000000, 36000000000, true, "disponible"⟩,
     ⟨6, none, 0, 39600000000, 43200000000, true, "disponible"⟩]
    (by decide) (by decide)

/-- C6: on a day not short-circuited by a whole-day disabled exception, if no
rules apply the output is the single full-day `"no_habilitado"` slot;
otherwise the output has exactly one slot per applicable rule — each slot is
`reglaSlot` of its rule (date combined with the rule's times, labelled with
`tipo_intervalo` if enabled, else `"no_habilitado"`) — and the slots are
ordered by start ascending. -/
theorem claim6_rule_derived_slots (labId d : Nat) (reglas : List Regla)
    (excs : List Excepcion) (hopen : diaCerrado labId excs d = false) :
    (reglasAUsar labId reglas (weekday d) = [] →
      computeDia labId reglas excs d = [fullDaySlot d "no_habilitado"]) ∧
    (reglasAUsar labId reglas (weekday d) ≠ [] →
      (computeDia labId reglas excs d).Perm
        ((reglasAUsar labId reglas (weekday d)).map (reglaSlot d)) ∧
      (computeDia labId reglas excs d).Pairwise (fun s t => s.inicio ≤ t.inicio)) := by
  rw [computeDia_not_cerrado labId reglas excs d hopen]
  constructor
  · intro h
    simp [slotsReglas, h]
  · intro h
    have hne : (reglasAUsar labId reglas (weekday d)).isEmpty = false := by
      cases hval : reglasAUsar labId reglas (weekday d) with
      | nil => exact absurd hval h
      | cons a l => rfl
    have hform : slotsReglas labId reglas d
        = (sortReglas (reglasAUsar labId reglas (weekday d))).map (reglaSlot d) := by
      simp [slotsReglas, hne]
    rw [hform]
    constructor
    · exact (sortReglas_perm (reglasAUsar labId reglas (weekday d))).map (reglaSlot d)
    · refine List.Pairwise.map (reglaSlot d) ?_
        (sortReglas_sorted (reglasAUsar labId reglas (weekday d)))
      intro a b hab
      exact Nat.add_le_add_left hab _

/-- Witness for C6: Monday has two enabled rules (listed out of order) and one
disabled one; the output is one slot per rule, sorted by start, with the
disabled rule's slot labelled `"no_habilitado"`. -/
theorem claim6_witness :
    reglasAUsar 1 [⟨5, some 1, 0, 39600000000, 43200000000, true, "disponible"⟩,
                   ⟨6, some 1, 0, 32400000000, 36000000000, false, "disponible"⟩]
        (weekday 1) ≠ [] ∧
    (computeDia 1 [⟨5, some 1, 0, 39600000000, 43200000000, true, "disponible"⟩,
                   ⟨6, some 1, 0, 32400000000, 36000000000, false, "disponible"⟩] [] 1).Perm
      ((reglasAUsar 1 [⟨5, some 1, 0, 39600000000, 43200000000, true, "disponible"⟩,
                       ⟨6, some 1, 0, 32400000000, 36000000000, false, "disponible"⟩]
          (weekday 1)).map (reglaSlot 1)) ∧
    (computeDia 1 [⟨5, some 1, 0, 39600000000, 43200000000, true, "disponible"⟩,
                   ⟨6, some 1, 0, 32400000000, 36000000000, false, "disponible"⟩]
        [] 1).Pairwise (fun s t => s.inicio ≤ t.inicio) :=
  ⟨by decide,
   (claim6_rule_derived_slots 1 1
      [⟨5, some 1, 0, 39600000000, 43200000000, true, "disponible"⟩,
       ⟨6, some 1, 0, 32400000000, 36000000000, false, "disponible"⟩] [] rfl).2 (by decide)⟩

/-- C7, counterexample: facility 1 has two Monday rules 09:00–10:00 and
09:30–10:30, each individually valid (`start_time < end_time`, exactly what
`create_regla_horario` enforces), yet the two slots emitted for a Monday
overlap — per-rule validity does not make the day's slots disjoint. -/
theorem claim7_counterexample :
    ([⟨1, some 1, 0, 32400000000, 36000000000, true, "disponible"⟩,
      ⟨2, some 1, 0, 34200000000, 37800000000, true, "disponible"⟩] : List Regla).all
        (fun r => decide (r.hora_inicio < r.hora_fin)) = true ∧
    ¬ (computeDia 1 [⟨1, some 1, 0, 32400000000, 36000000000, true, "disponible"⟩,
                     ⟨2, some 1, 0, 34200000000, 37800000000, true, "disponible"⟩]
        [] 1).Pairwise (fun s t => s.fin ≤ t.inicio ∨ t.fin ≤ s.inicio) := by
  constructor
  · decide
  · decide

/-- C7 (amended): for every facility, date, exception set, and rule set in
which the rules applicable to the day are pairwise non-overlapping in time,
the slot sequence `compute_schedule` emits for that day contains no two
slots whose intervals overlap.  (Per-rule `start_time < end_time` alone is
not enough — see the counterexample — the disjointness must hold across the
applicable rules.) -/
theorem claim7_no_overlap_within_day (labId d : Nat) (reglas : List Regla)
    (excs : List Excepcion)
    (h : (reglasAUsar labId reglas (weekday d)).Pairwise
      (fun r r1 => r.hora_fin ≤ r1.hora_inicio ∨ r1.hora_fin ≤ r.hora_inicio)) :
    (computeDia labId reglas excs d).Pairwise
      (fun s t => s.fin ≤ t.inicio ∨ t.fin ≤ s.inicio) := by
  by_cases hc : diaCerrado labId excs d = true
  · unfold diaCerrado at hc
    cases hsel : excepcionAUsar labId d excs with
    | none => rw [hsel] at hc; exact absurd hc (by simp)
    | some e =>
      rw [hsel] at hc
      have hcond : (!e.es_habilitado && e.hora_inicio.isNone) = true := hc
      rcases Bool.and_eq_true_iff.mp hcond with ⟨hdis, hini⟩
      rw [computeDia_cerrado labId reglas excs d e hsel
        (by simpa using hdis) (by simpa using hini)]
      exact List.pairwise_singleton _ _
  · rw [computeDia_not_cerrado labId reglas excs d (by simpa using hc)]
    unfold slotsReglas
    by_cases he : (reglasAUsar labId reglas (weekday d)).isEmpty = true
    · simp only [he, if_true]
      exact List.pairwise_singleton _ _
    · simp only [he, if_false]
      have hsorted : (sortReglas (reglasAUsar labId reglas (weekday d))).Pairwise
          (fun r r1 => r.hora_fin ≤ r1.hora_inicio ∨ r1.hora_fin ≤ r.hora_inicio) := by
        refine (List.Perm.pairwise_iff ?_
          (sortReglas_perm (reglasAUsar labId reglas (weekday d)))).mpr h
        intro a b hab
        exact hab.symm
      refine List.Pairwise.map (reglaSlot d) ?_ hsorted
      intro a b hab
      rcases hab with hab | hab
      · exact Or.inl (Nat.add_le_add_left hab _)
      · exact Or.inr (Nat.add_le_add_left hab _)

/-- Witness for C7 (amended): two disjoint Monday rules, listed out of order,
give two disjoint slots. -/
theorem claim7_witness :
    (computeDia 1 [⟨1, some 1, 0, 39600000000, 43200000000, true, "disponible"⟩,
                   ⟨2, some 1, 0, 32400000000, 36000000000, true, "disponible"⟩]
        [] 1).Pairwise (fun s t => s.fin ≤ t.inicio ∨ t.fin ≤ s.inicio) :=
  claim7_no_overlap_within_day 1 1
    [⟨1, some 1, 0, 39600000000, 43200000000, true, "disponible"⟩,
     ⟨2, some 1, 0, 32400000000, 36000000000, true, "disponible"⟩] [] (by decide)

/-- Once the role, facility, requester, range and past checks pass,
`create_reserva` reduces to: exact-slot validation, then the overlap query,
then commit plus best-effort calendar step. -/
theorem createReserva_after_checks (env : BookingEnv) (callerRol : String)
    (req : ReservaCreate) (now : Nat) (cal : CalendarResult)
    (store : List ReservaRow) (newId : Nat)
    (hrole : (callerRol == "admin" || callerRol == "docente") = true)
    (hlab : env.labs.contains req.laboratorio_id = true)
    (huser : env.userExists req.usuario_id = true)
    (hrange : req.inicio < req.fin)
    (hpast : now ≤ req.inicio) :
    createReserva env callerRol req now cal store newId =
      if (slotsDelDia req.laboratorio_id env.reglas env.excepciones req.inicio).any
          (fun s => s.inicio == req.inicio && s.fin == req.fin && s.tipo == "disponible") then
        match store.find? (fun r => r.laboratorio_id == req.laboratorio_id
            && !(r.estado == "cancelada")
            && decide (r.inicio < req.fin) && decide (r.fin > req.inicio)) with
        | some r => .error (.overlap r.id)
        | none =>
          .ok (reservaFinal ⟨newId, req.usuario_id, req.laboratorio_id, req.inicio,
                req.fin, "activa", none⟩ cal,
            store ++ [reservaFinal ⟨newId, req.usuario_id, req.laboratorio_id, req.inicio,
                req.fin, "activa", none⟩ cal])
      else .error .slotMismatch := by
  unfold createReserva
  rw [if_neg (by rw [hrole]; simp), if_neg (by rw [hlab]; simp), if_neg (by rw [huser]; simp),
    if_neg (Nat.not_le.mpr hrange), if_neg (Nat.not_lt.mpr hpast)]
  cases hs : (slotsDelDia req.laboratorio_id env.reglas env.excepciones req.inicio).any
      (fun s => s.inicio == req.inicio && s.fin == req.fin && s.tipo == "disponible") with
  | true => simp
  | false => simp

/-- C3, counterexample: a request with `start >= end` (here both 5) naming a
nonexistent facility (empty facility table) fails with `FacilityNotFound`,
not `InvalidRange` — the facility check runs before the range check. -/
theorem claim3_counterexample :
    createReserva ⟨[], fun _ => true, [], []⟩ "admin" ⟨1, 1, 5, 5⟩ 0 .failed [] 1
      = .error .facilityNotFound ∧
    BookingError.facilityNotFound ≠ BookingError.invalidRange := by
  exact ⟨rfl, by decide⟩

/-- C3 (amended): after the caller-role check, `create_reserva` checks its
preconditions in this order, the first failing check determining the error:
(1) facility exists, else `FacilityNotFound`; (2) requester exists, else
`RequesterNotFound`; (3) `start < end`, else `InvalidRange`; (4)
`start >= now`, else `InPast`; then the slot match (`SlotMismatch`), then
the overlap check.  In particular a request with `start >= end` naming a
nonexistent facility gets `FacilityNotFound`, not `InvalidRange`. -/
theorem claim3_actual_check_order (env : BookingEnv) (callerRol : String)
    (req : ReservaCreate) (now : Nat) (cal : CalendarResult)
    (store : List ReservaRow) (newId : Nat)
    (hrole : (callerRol == "admin" || callerRol == "docente") = true) :
    (env.labs.contains req.laboratorio_id = false →
      createReserva env callerRol req now cal store newId = .error .facilityNotFound) ∧
    (env.labs.contains req.laboratorio_id = true →
      env.userExists req.usuario_id = false →
      createReserva env callerRol req now cal store newId = .error .requesterNotFound) ∧
    (env.labs.contains req.laboratorio_id = true →
      env.userExists req.usuario_id = true → req.fin ≤ req.inicio →
      createReserva env callerRol req now cal store newId = .error .invalidRange) ∧
    (env.labs.contains req.laboratorio_id = true →
      env.userExists req.usuario_id = true → req.inicio < req.fin → req.inicio < now →
      createReserva env callerRol req now cal store newId = .error .inPast) ∧
    (env.labs.contains req.laboratorio_id = true →
      env.userExists req.usuario_id = true → req.inicio < req.fin → now ≤ req.inicio →
      (slotsDelDia req.laboratorio_id env.reglas env.excepciones req.inicio).any
        (fun s => s.inicio == req.inicio && s.fin == req.fin && s.tipo == "disponible")
        = false →
      createReserva env callerRol req now cal store newId = .error .slotMismatch) := by
  refine ⟨?_, ?_, ?_, ?_, ?_⟩
  · intro hlab
    unfold createReserva
    rw [if_neg (by rw [hrole]; simp), if_pos (by rw [hlab]; simp)]
  · intro hlab huser
    unfold createReserva
    rw [if_neg (by rw [hrole]; simp), if_neg (by rw [hlab]; simp),
      if_pos (by rw [huser]; simp)]
  · intro hlab huser hrange
    unfold createReserva
    rw [if_neg (by rw [hrole]; simp), if_neg (by rw [hlab]; simp),
      if_neg (by rw [huser]; simp), if_pos hrange]
  · intro hlab huser hrange hpast
    unfold createReserva
    rw [if_neg (by rw [hrole]; simp), if_neg (by rw [hlab]; simp),
      if_neg (by rw [huser]; simp), if_neg (Nat.not_le.mpr hrange), if_pos hpast]
  · intro hlab huser hrange hpast hslot
    rw [createReserva_after_checks env callerRol req now cal store newId
      hrole hlab huser hrange hpast]
    rw [hslot]
    simp

/-- Witness for C3 (amended): facility 7 exists but the requester does not
resolve, so the result is `RequesterNotFound`; and with a resolving
requester but `start >= end` the result is `InvalidRange`. -/
theorem claim3_witness :
    createReserva ⟨[7], fun _ => false, [], []⟩ "admin" ⟨1, 7, 5, 5⟩ 0 .failed [] 1
      = .error .requesterNotFound ∧
    createReserva ⟨[7], fun _ => true, [], []⟩ "admin" ⟨1, 7, 5, 5⟩ 0 .failed [] 1
      = .error .invalidRange :=
  ⟨(claim3_actual_check_order ⟨[7], fun _ => false, [], []⟩ "admin" ⟨1, 7, 5, 5⟩ 0
      .failed [] 1 rfl).2.1 rfl rfl,
   (claim3_actual_check_order ⟨[7], fun _ => true, [], []⟩ "admin" ⟨1, 7, 5, 5⟩ 0
      .failed [] 1 rfl).2.2.1 rfl rfl (Nat.le_refl 5)⟩

/-- C2: for a request passing the role, facility, requester, range and past
checks, `create_reserva` succeeds only if the Availability Evaluator's output
for the single day `start.date()` contains a slot with exactly
`slot.inicio = start`, `slot.fin = end` and `slot.tipo = "disponible"`; when
no such slot exists the request fails with `SlotMismatch` and the store is
unchanged. -/
theorem claim2_exact_slot_match (env : BookingEnv) (callerRol : String)
    (req : ReservaCreate) (now : Nat) (cal : CalendarResult)
    (store : List ReservaRow) (newId : Nat)
    (hrole : (callerRol == "admin" || callerRol == "docente") = true)
    (hlab : env.labs.contains req.laboratorio_id = true)
    (huser : env.userExists req.usuario_id = true)
    (hrange : req.inicio < req.fin)
    (hpast : now ≤ req.inicio) :
    (∀ r s1, createReserva env callerRol req now cal store newId = .ok (r, s1) →
      ∃ s ∈ slotsDelDia req.laboratorio_id env.reglas env.excepciones req.inicio,
        s.inicio = req.inicio ∧ s.fin = req.fin ∧ s.tipo = "disponible") ∧
    ((¬ ∃ s ∈ slotsDelDia req.laboratorio_id env.reglas env.excepciones req.inicio,
        s.inicio = req.inicio ∧ s.fin = req.fin ∧ s.tipo = "disponible") →
      createReserva env callerRol req now cal store newId = .error .slotMismatch ∧
      storeAfter store (createReserva env callerRol req now cal store newId) = store) := by
  rw [createReserva_after_checks env callerRol req now cal store newId
    hrole hlab huser hrange hpast]
  constructor
  · intro r s1 h
    cases hs : (slotsDelDia req.laboratorio_id env.reglas env.excepciones req.inicio).any
        (fun s => s.inicio == req.inicio && s.fin == req.fin && s.tipo == "disponible") with
    | false => rw [hs] at h; simp at h
    | true =>
      obtain ⟨s, hmem, hps⟩ := List.any_eq_true.mp hs
      refine ⟨s, hmem, ?_⟩
      simpa [and_assoc] using hps
  · intro hno
    have hs : (slotsDelDia req.laboratorio_id env.reglas env.excepciones req.inicio).any
        (fun s => s.inicio == req.inicio && s.fin == req.fin && s.tipo == "disponible")
        = false := by
      cases hval : (slotsDelDia req.laboratorio_id env.reglas env.excepciones
          req.inicio).any
          (fun s => s.inicio == req.inicio && s.fin == req.fin && s.tipo == "disponible") with
      | false => rfl
      | true =>
        obtain ⟨s, hmem, hps⟩ := List.any_eq_true.mp hval
        exact absurd ⟨s, hmem, by simpa [and_assoc] using hps⟩ hno
    rw [hs]
    exact ⟨by simp, by simp [storeAfter]⟩

/-- Witness for C2, the spec's scenario: facility 1 has a Monday 09:00–10:00
rule; a Monday 09:15–10:15 request (day ordinal 8 is a Monday) matches no
slot boundary exactly and fails with `SlotMismatch`. -/
theorem claim2_witness :
    createReserva ⟨[1], fun _ => true,
        [⟨1, some 1, 0, 32400000000, 36000000000, true, "disponible"⟩], []⟩
      "docente" ⟨2, 1, combine 8 33300000000, combine 8 36900000000⟩ 0 .failed [] 1
      = .error .slotMismatch :=
  ((claim2_exact_slot_match ⟨[1], fun _ => true,
        [⟨1, some 1, 0, 32400000000, 36000000000, true, "disponible"⟩], []⟩
      "docente" ⟨2, 1, combine 8 33300000000, combine 8 36900000000⟩ 0 .failed [] 1
      rfl rfl rfl (by decide) (by decide)).2 (by decide)).1

/-- C9: the calendar collaborator's outcome never decides success — the call
succeeds or fails identically for every calendar outcome — and when the
booking was persisted and the calendar-event creation failed, the booking
stays persisted at the end of the store with `estado = "activa"` and
`google_event_id` unset. -/
theorem claim9_calendar_failure_swallowed (env : BookingEnv) (callerRol : String)
    (req : ReservaCreate) (now : Nat) (store : List ReservaRow) (newId : Nat) :
    (∀ cal1 cal2,
      resultOk (createReserva env callerRol req now cal1 store newId) =
      resultOk (createReserva env callerRol req now cal2 store newId)) ∧
    (∀ r s1, createReserva env callerRol req now .failed store newId = .ok (r, s1) →
      r.estado = "activa" ∧ r.google_event_id = none ∧ s1 = store ++ [r]) := by
  constructor
  · intro cal1 cal2
    unfold createReserva
    repeat' split
    all_goals rfl
  · intro r s1 h
    unfold createReserva at h
    repeat' split at h
    all_goals try exact Except.noConfusion h
    injection h with hpair
    rw [Prod.mk.injEq] at hpair
    obtain ⟨h1, h2⟩ := hpair
    subst h1
    subst h2
    exact ⟨rfl, rfl, rfl⟩

/-- Witness for C9: a successful booking with a failed calendar call is
persisted active with no event id, and the same call with a working calendar
also succeeds. -/
theorem claim9_witness :
    (resultOk (createReserva ⟨[1], fun _ => true,
        [⟨1, some 1, 0, 32400000000, 36000000000, true, "disponible"⟩], []⟩
      "docente" ⟨2, 1, combine 8 32400000000, combine 8 36000000000⟩ 0
      (.ok (some "evt")) [] 1) =
     resultOk (createReserva ⟨[1], fun _ => true,
        [⟨1, some 1, 0, 32400000000, 36000000000, true, "disponible"⟩], []⟩
      "docente" ⟨2, 1, combine 8 32400000000, combine 8 36000000000⟩ 0
      .failed [] 1)) ∧
    ((⟨1, 2, 1, combine 8 32400000000, combine 8 36000000000, "activa", none⟩ :
        ReservaRow).estado = "activa" ∧
      (⟨1, 2, 1, combine 8 32400000000, combine 8 36000000000, "activa", none⟩ :
        ReservaRow).google_event_id = none ∧
      ([⟨1, 2, 1, combine 8 32400000000, combine 8 36000000000, "activa", none⟩] :
        List ReservaRow) = []
        ++ [⟨1, 2, 1, combine 8 32400000000, combine 8 36000000000, "activa", none⟩]) :=
  ⟨(claim9_calendar_failure_swallowed ⟨[1], fun _ => true,
        [⟨1, some 1, 0, 32400000000, 36000000000, true, "disponible"⟩], []⟩
      "docente" ⟨2, 1, combine 8 32400000000, combine 8 36000000000⟩ 0 [] 1).1
      (.ok (some "evt")) .failed,
   (claim9_calendar_failure_swallowed ⟨[1], fun _ => true,
        [⟨1, some 1, 0, 32400000000, 36000000000, true, "disponible"⟩], []⟩
      "docente" ⟨2, 1, combine 8 32400000000, combine 8 36000000000⟩ 0 [] 1).2
      ⟨1, 2, 1, combine 8 32400000000, combine 8 36000000000, "activa", none⟩
      [⟨1, 2, 1, combine 8 32400000000, combine 8 36000000000, "activa", none⟩]
      rfl⟩

/-- C1: starting from a store in which no two non-cancelled bookings for the
same facility overlap, any successful `create_reserva` leaves the store with
the same property; and a request (that reaches the overlap check) whose
interval overlaps an existing non-cancelled booking of the facility
(`existing.inicio < fin` and `existing.fin > inicio`) fails with the overlap
conflict error and inserts nothing. -/
theorem claim1_overlap_invariant (env : BookingEnv) (callerRol : String)
    (req : ReservaCreate) (now : Nat) (cal : CalendarResult)
    (store : List ReservaRow) (newId : Nat)
    (hok : okStore store) :
    (∀ r s1, createReserva env callerRol req now cal store newId = .ok (r, s1) →
      okStore s1) ∧
    ((callerRol == "admin" || callerRol == "docente") = true →
      env.labs.contains req.laboratorio_id = true →
      env.userExists req.usuario_id = true →
      req.inicio < req.fin → now ≤ req.inicio →
      (slotsDelDia req.laboratorio_id env.reglas env.excepciones req.inicio).any
        (fun s => s.inicio == req.inicio && s.fin == req.fin && s.tipo == "disponible")
        = true →
      ∀ x ∈ store, x.laboratorio_id = req.laboratorio_id → x.estado ≠ "cancelada" →
        x.inicio < req.fin → x.fin > req.inicio →
        ∃ c, createReserva env callerRol req now cal store newId
          = .error (.overlap c)) := by
  constructor
  · intro r s1 h
    unfold createReserva at h
    repeat' split at h
    all_goals try exact Except.noConfusion h
    rename_i hfind
    injection h with hpair
    rw [Prod.mk.injEq] at hpair
    obtain ⟨h1, h2⟩ := hpair
    subst h1
    subst h2
    unfold okStore
    refine List.pairwise_append.mpr ⟨hok, List.pairwise_singleton _ _, ?_⟩
    intro a ha b hb
    simp only [List.mem_singleton] at hb
    subst hb
    intro hlab1 hnc1 hnc2 hov
    have hfa := List.find?_eq_none.mp hfind a ha
    apply hfa
    have hl : a.laboratorio_id = req.laboratorio_id := by
      simpa [reservaFinal_laboratorio] using hlab1
    have hi : a.inicio < req.fin := by
      simpa [reservaFinal_fin] using hov.1
    have hf2 : a.fin > req.inicio := by
      simpa [reservaFinal_inicio] using hov.2
    simp [hl, hnc1, hi, hf2]
  · intro hrole hlab huser hrange hpast hslot x hx hxlab hxnc hxi hxf
    rw [createReserva_after_checks env callerRol req now cal store newId
      hrole hlab huser hrange hpast]
    rw [if_pos hslot]
    have hsome : ∃ y, store.find? (fun r => r.laboratorio_id == req.laboratorio_id
        && !(r.estado == "cancelada")
        && decide (r.inicio < req.fin) && decide (r.fin > req.inicio)) = some y := by
      cases hf : store.find? (fun r => r.laboratorio_id == req.laboratorio_id
          && !(r.estado == "cancelada")
          && decide (r.inicio < req.fin) && decide (r.fin > req.inicio)) with
      | some y => exact ⟨y, rfl⟩
      | none =>
        exfalso
        apply List.find?_eq_none.mp hf x hx
        simp [hxlab, hxnc, hxi, hxf]
    obtain ⟨y, hy⟩ := hsome
    rw [hy]
    exact ⟨y.id, rfl⟩

/-- Witness for C1, the spec's scenario: facility 1 has a Monday 09:00–10:00
rule, one active booking already fills that exact window (a one-element
store trivially satisfies the invariant), and a second identical request
fails with the overlap error. -/
theorem claim1_witness :
    ∃ c, createReserva ⟨[1], fun _ => true,
        [⟨1, some 1, 0, 32400000000, 36000000000, true, "disponible"⟩], []⟩
      "docente" ⟨3, 1, combine 8 32400000000, combine 8 36000000000⟩ 0 .failed
      [⟨1, 2, 1, combine 8 32400000000, combine 8 36000000000, "activa", none⟩] 2
      = .error (.overlap c) :=
  (claim1_overlap_invariant ⟨[1], fun _ => true,
      [⟨1, some 1, 0, 32400000000, 36000000000, true, "disponible"⟩], []⟩
      "docente" ⟨3, 1, combine 8 32400000000, combine 8 36000000000⟩ 0 .failed
      [⟨1, 2, 1, combine 8 32400000000, combine 8 36000000000, "activa", none⟩] 2
      (List.pairwise_singleton _ _)).2
    rfl rfl rfl (by decide) (by decide) (by decide)
    ⟨1, 2, 1, combine 8 32400000000, combine 8 36000000000, "activa", none⟩
    (List.mem_singleton.mpr rfl) rfl (by decide) (by decide) (by decide)
